import Mathlib

/-!
Shallow embedding of the swftp FTP server core (src/swftp/ftp/server.py):
the Shell Adapter (`SwiftFTPShell`), the Attribute Translator (`stat_format`),
and the two halves of the Streaming Transfer Bridge that live in this file
(`SwiftWriteFile`, `SwiftReadFile`).

The backing Virtual Filesystem (`swftp/swiftfilesystem.py`: `SwiftFileSystem`,
`swift_stat`) is not under src/; where a claim needs it, the missing function is
modelled from the spec and marked `Modelled from the spec:` in its doc comment.
Twisted Deferred chains are modelled by explicit `Except` values: a shell
operation is a function from the outcome of the backend Deferred it wraps to
the outcome the protocol engine observes, with `addCallback` / `addErrback`
mirroring Twisted's callback-pair semantics.
-/

/-- Backend failure taxonomy raised by the Swift client layer
(`swftp.swift.NotFound`, `swftp.swift.Conflict`), plus Python's builtin
`NotImplementedError` and a generic catch-all for other transport failures. -/
inductive BackendError where
  | notFound
  | conflict
  | notImplementedError
  | otherFailure (msg : String)
deriving DecidableEq

/-- A path argument as the Python code passes it to an exception constructor:
either an already-joined full path string or the raw segment list. -/
inductive PyPath where
  | str (s : String)
  | segs (l : List String)
deriving DecidableEq

/-- Protocol-engine error taxonomy from `twisted.protocols.ftp` used by
server.py. -/
inductive FTPError where
  | fileNotFoundError (p : PyPath)
  | cmdNotImplementedForArgError (p : PyPath)
  | isNotADirectoryError (p : PyPath)
  | isADirectoryError (p : PyPath)
deriving DecidableEq

/-- A failure travelling down a Deferred errback chain: either a raw backend
failure or a protocol-engine error produced by remapping. -/
inductive Failure where
  | backend (e : BackendError)
  | ftp (e : FTPError)
deriving DecidableEq

deriving instance DecidableEq for Except

/-- `failure.check(SomeError)` for a single backend error class. -/
def Failure.check (f : Failure) (e : BackendError) : Bool :=
  f = Failure.backend e

/-- Twisted `d.addCallback(cb)`: `cb` runs on success, failures pass through. -/
def addCallback {α β : Type} (d : Except Failure α) (cb : α → Except Failure β) :
    Except Failure β :=
  match d with
  | Except.ok a => cb a
  | Except.error f => Except.error f

/-- Twisted `d.addErrback(eb)`: `eb` runs on failure, successes pass through. -/
def addErrback {α : Type} (d : Except Failure α) (eb : Failure → Except Failure α) :
    Except Failure α :=
  match d with
  | Except.ok a => Except.ok a
  | Except.error f => eb f

/-- Lift the outcome of a backend call into the failure chain: a backend
exception becomes a raw `Failure.backend` travelling down the errback chain. -/
def liftB {α : Type} (r : Except BackendError α) : Except Failure α :=
  match r with
  | Except.ok a => Except.ok a
  | Except.error e => Except.error (Failure.backend e)

/-- `SwiftFTPShell._fullpath`: `'/'.join(path_parts)`. -/
def fullpath (path_parts : List String) : String :=
  String.intercalate "/" path_parts

/-- Raw object attributes as returned by the backend (`getAttrs` result dict):
the fields server.py reads. `last_modified` is a rational to model the float
timestamp that `stat_format` truncates with `int(...)`. -/
structure SwiftProps where
  size : Int
  content_type : String
  last_modified : Rat
deriving DecidableEq

/-- Result of `swift_stat`: the `os.stat`-like record whose fields
`stat_format` reads. -/
structure SwiftStatInfo where
  st_size : Int
  st_mode : Nat
  st_mtime : Rat
deriving DecidableEq

/-- `stat.S_IFDIR` (0o040000). -/
def S_IFDIR : Nat := 16384

/-- Modelled from the spec: `swift_stat` lives in `swftp/swiftfilesystem.py`,
which is not under src/. Per §2/§4.2 and the ObjectAttributes data model, it
builds a stat-like record from a raw backend object description: the size
field verbatim, cosmetic mode bits whose `S_IFDIR` bit is set exactly when the
backend content type is the directory marker type `application/directory`
(`is_directory` is derived solely from the content-type convention), and the
modification timestamp. The cosmetic permission bits are 0o755 for
directories and 0o100644 for regular files. -/
def swift_stat (props : SwiftProps) : SwiftStatInfo :=
  { st_size := props.size
  , st_mode := if props.content_type = "application/directory"
      then S_IFDIR + 493 else 33188
  , st_mtime := props.last_modified }

/-- Python `int(q)` on a rational value: truncation toward zero. -/
def pyInt (q : Rat) : Int :=
  q.num.tdiv (q.den : Int)

/-- Python's `needle in haystack` on lists of characters: contiguous
substring containment (the empty needle is contained in everything). -/
def startsWithChars : List Char → List Char → Bool
  | [], _ => true
  | _ :: _, [] => false
  | a :: as, b :: bs => a == b && startsWithChars as bs

/-- Python's `needle in haystack` substring test, recursing on the haystack. -/
def containsChars (needle : List Char) : List Char → Bool
  | [] => startsWithChars needle []
  | c :: rest => startsWithChars needle (c :: rest) || containsChars needle rest

/-- Python's `needle in haystack` for strings. -/
def pyIn (needle haystack : String) : Bool :=
  containsChars needle.data haystack.data

/-- One formatted attribute value: Python's heterogeneous list entries are
ints, bools or strings. -/
inductive StatVal where
  | intVal (n : Int)
  | boolVal (b : Bool)
  | strVal (s : String)
deriving DecidableEq

/-- `stat_format(keys, props)` from server.py: runs `swift_stat` on the raw
properties and emits, per requested key and in order, the matching stat field;
`key in 'owner'` / `key in 'group'` are Python substring tests; unknown keys
yield the empty string. -/
def stat_format (keys : List String) (props : SwiftProps) : List StatVal :=
  let st := swift_stat props
  keys.map fun key =>
    if key = "size" then StatVal.intVal st.st_size
    else if key = "directory" then
      StatVal.boolVal (decide (st.st_mode &&& S_IFDIR = S_IFDIR))
    else if key = "permissions" then StatVal.intVal (st.st_mode : Int)
    else if key = "hardlinks" then StatVal.intVal 0
    else if key = "modified" then StatVal.intVal (pyInt st.st_mtime)
    else if pyIn key "owner" then StatVal.strVal "nobody"
    else if pyIn key "group" then StatVal.strVal "nobody"
    else StatVal.strVal ""

/-- Backend object store state: objects keyed by full path. Used only by the
spec-modelled `SwiftFileSystem` operations. -/
abbrev BackendState := List (String × SwiftProps)

/-- Modelled from the spec: `SwiftFileSystem.removeFile` lives in
`swftp/swiftfilesystem.py`, which is not under src/. §4.3:
`removeFile(path) -> success | fails(NotFound)` — it deletes the object and
succeeds when it exists, and fails with the backend `NotFound` when it does
not (§8: "Deleting a non-existent file yields NotFound"). -/
def SwiftFileSystem.removeFile (b : BackendState) (fp : String) :
    Except BackendError Unit :=
  match b.lookup fp with
  | some _ => Except.ok ()
  | none => Except.error BackendError.notFound

/-- Errback of `SwiftFTPShell.removeDirectory`: `failure.trap(NotFound)` —
a NotFound failure is swallowed (the errback returns None, i.e. success);
any other failure is re-raised. -/
def SwiftFTPShell.removeDirectory_errback (failure : Failure) :
    Except Failure Unit :=
  if failure.check BackendError.notFound then Except.ok ()
  else Except.error failure

/-- `SwiftFTPShell.removeDirectory(path)`: wraps the filesystem call (whose
Deferred outcome is `r`) with the NotFound-swallowing errback. -/
def SwiftFTPShell.removeDirectory (path : List String)
    (r : Except BackendError Unit) : Except Failure Unit :=
  addErrback (liftB r) SwiftFTPShell.removeDirectory_errback

/-- Errback of `SwiftFTPShell.removeFile`: `failure.trap(NotFound)` — same
NotFound-swallowing shape as removeDirectory. -/
def SwiftFTPShell.removeFile_errback (failure : Failure) :
    Except Failure Unit :=
  if failure.check BackendError.notFound then Except.ok ()
  else Except.error failure

/-- `SwiftFTPShell.removeFile(path)`: wraps the filesystem call (whose
Deferred outcome is `r`) with the NotFound-swallowing errback. -/
def SwiftFTPShell.removeFile (path : List String)
    (r : Except BackendError Unit) : Except Failure Unit :=
  addErrback (liftB r) SwiftFTPShell.removeFile_errback

/-- End-to-end `removeFile` against the spec-modelled backend filesystem. -/
def SwiftFTPShell.removeFileOn (b : BackendState) (path : List String) :
    Except Failure Unit :=
  SwiftFTPShell.removeFile path (SwiftFileSystem.removeFile b (fullpath path))

/-- Errback of `SwiftFTPShell.rename`:
`failure.trap(NotFound, Conflict, NotImplementedError)`, then NotFound maps to
`FileNotFoundError(oldpath)` and the other two trapped classes map to
`CmdNotImplementedForArgError(oldpath)`; untrapped failures re-raise. -/
def SwiftFTPShell.rename_errback (oldpath : String) (failure : Failure) :
    Except Failure Unit :=
  if failure.check BackendError.notFound || failure.check BackendError.conflict
      || failure.check BackendError.notImplementedError then
    if failure.check BackendError.notFound then
      Except.error (Failure.ftp (FTPError.fileNotFoundError (PyPath.str oldpath)))
    else
      Except.error (Failure.ftp
        (FTPError.cmdNotImplementedForArgError (PyPath.str oldpath)))
  else Except.error failure

/-- `SwiftFTPShell.rename(fromPath, toPath)`: joins both paths and wraps the
filesystem `renameFile` call (whose Deferred outcome is `r`) with the
remapping errback, which only uses the joined source path. -/
def SwiftFTPShell.rename (fromPath toPath : List String)
    (r : Except BackendError Unit) : Except Failure Unit :=
  addErrback (liftB r) (SwiftFTPShell.rename_errback (fullpath fromPath))

/-- Callback of `SwiftFTPShell.access`: a directory content type grants
access (the no-op grant `lambda: None`, modelled as `()`); anything else
fails with `IsNotADirectoryError(path)` (the raw segment list). -/
def SwiftFTPShell.access_cb (path : List String) (result : SwiftProps) :
    Except Failure Unit :=
  if result.content_type = "application/directory" then Except.ok ()
  else Except.error (Failure.ftp (FTPError.isNotADirectoryError (PyPath.segs path)))

/-- Errback of `SwiftFTPShell.access`: `failure.trap(NotFound)` — NotFound is
turned into the no-op grant; everything else (including the callback's
IsNotADirectoryError) re-raises. -/
def SwiftFTPShell.access_err (failure : Failure) : Except Failure Unit :=
  if failure.check BackendError.notFound then Except.ok ()
  else Except.error failure

/-- `SwiftFTPShell.access(path)`: `getAttrs` (Deferred outcome `r`) chained
with the callback then the errback, mirroring `addCallback`/`addErrback`
order in the source. -/
def SwiftFTPShell.access (path : List String)
    (r : Except BackendError SwiftProps) : Except Failure Unit :=
  addErrback (addCallback (liftB r) (SwiftFTPShell.access_cb path))
    SwiftFTPShell.access_err

/-- Callback of `SwiftFTPShell.stat`: format the attribute dict. -/
def SwiftFTPShell.stat_cb (keys : List String) (result : SwiftProps) :
    Except Failure (List StatVal) :=
  Except.ok (stat_format keys result)

/-- Errback of `SwiftFTPShell.stat`: `failure.trap(NotFound)` then
`FileNotFoundError(path)` (the raw segment list); others re-raise. -/
def SwiftFTPShell.stat_err (path : List String) (failure : Failure) :
    Except Failure (List StatVal) :=
  if failure.check BackendError.notFound then
    Except.error (Failure.ftp (FTPError.fileNotFoundError (PyPath.segs path)))
  else Except.error failure

/-- `SwiftFTPShell.stat(path, keys)`: `getAttrs` (Deferred outcome `r`)
chained with the formatting callback then the NotFound-remapping errback. -/
def SwiftFTPShell.stat (path : List String) (keys : List String)
    (r : Except BackendError SwiftProps) : Except Failure (List StatVal) :=
  addErrback (addCallback (liftB r) (SwiftFTPShell.stat_cb keys))
    (SwiftFTPShell.stat_err path)

/-- Callback of `SwiftFTPShell.list`: format every listing entry. -/
def SwiftFTPShell.list_cb (keys : List String)
    (results : List (String × SwiftProps)) :
    Except Failure (List (String × List StatVal)) :=
  Except.ok (results.map fun kv => (kv.1, stat_format keys kv.2))

/-- `SwiftFTPShell.list(path, keys)`: `get_full_listing` (Deferred outcome
`r`) with only a callback attached — the source installs no errback here. -/
def SwiftFTPShell.list (path : List String) (keys : List String)
    (r : Except BackendError (List (String × SwiftProps))) :
    Except Failure (List (String × List StatVal)) :=
  addCallback (liftB r) (SwiftFTPShell.list_cb keys)

/-- `SwiftWriteFile`: the upload half of the Transfer Bridge. `finished`
holds the upload's completion Deferred once `receive` has stored it; it is
`None` (here `none`) from construction until then. The completion Deferred
itself is modelled by its eventual outcome. -/
structure SwiftWriteFile where
  fullpath : String
  finished : Option (Except Failure Unit)
deriving DecidableEq

/-- `SwiftWriteFile.__init__`: stores the path; `self.finished = None`. -/
def SwiftWriteFile.init (fullpath : String) : SwiftWriteFile :=
  { fullpath := fullpath, finished := none }

/-- `SwiftWriteFile.receive`: `startFileUpload` (not under src/) returns a
completion Deferred and a writer; the handle stores the Deferred in
`finished` and hands the writer out. Modelled by its state effect: the
upload's eventual outcome `uploadOutcome` is recorded in `finished`. -/
def SwiftWriteFile.receive (f : SwiftWriteFile)
    (uploadOutcome : Except Failure Unit) : SwiftWriteFile :=
  { f with finished := some uploadOutcome }

/-- `SwiftWriteFile.close`: `return self.finished` — whatever is currently
stored, including `None` when `receive` never ran. -/
def SwiftWriteFile.close (f : SwiftWriteFile) : Option (Except Failure Unit) :=
  f.finished

/-- `SwiftFTPShell.openForWriting(path)`: builds the write handle and
returns `defer.succeed(f)` immediately; the backend state is never
consulted (no existence or directory check is issued). -/
def SwiftFTPShell.openForWriting (b : BackendState) (path : List String) :
    Except Failure SwiftWriteFile :=
  Except.ok (SwiftWriteFile.init (fullpath path))

/-- Termination reason handed to `SwiftReadFile.connectionLost`:
`ResponseDone`, `PotentialDataLoss`, or any other wrapped failure. -/
inductive DownloadReason where
  | responseDone
  | potentialDataLoss
  | otherReason (f : Failure)
deriving DecidableEq

/-- `reason.check(ResponseDone)`. -/
def DownloadReason.checkResponseDone : DownloadReason → Bool
  | DownloadReason.responseDone => true
  | _ => false

/-- `reason.check(PotentialDataLoss)`. -/
def DownloadReason.checkPotentialDataLoss : DownloadReason → Bool
  | DownloadReason.potentialDataLoss => true
  | _ => false

/-- Observable effect of `SwiftReadFile.connectionLost`: how the `finished`
Deferred resolves (success `()` for `callback(None)`, or the errback reason)
and whether `consumer.stopProducing()` was called. -/
structure ConnectionLostOutcome where
  finished : Except DownloadReason Unit
  stopProducingCalled : Bool
deriving DecidableEq

/-- `SwiftReadFile.connectionLost(reason)`: ResponseDone or PotentialDataLoss
fire `finished.callback(None)`; any other reason fires
`finished.errback(reason)`; in both cases `consumer.stopProducing()` runs
afterwards. -/
def SwiftReadFile.connectionLost (reason : DownloadReason) :
    ConnectionLostOutcome :=
  { finished :=
      if reason.checkResponseDone || reason.checkPotentialDataLoss then
        Except.ok ()
      else Except.error reason
  , stopProducingCalled := true }

/-- Concrete non-directory file attributes used by the spec's stat scenario:
size 42, modification time 1700000000. -/
def fileProps42 : SwiftProps :=
  { size := 42
  , content_type := "application/octet-stream"
  , last_modified := (1700000000 : Rat) }

/-- Concrete directory attributes: zero size, directory content type. -/
def dirProps0 : SwiftProps :=
  { size := 0
  , content_type := "application/directory"
  , last_modified := (0 : Rat) }

/-- The fractional timestamp 1700000000.5, given as the reduced rational
3400000001/2 so that evaluation needs no rational arithmetic. -/
def mtimeFractional : Rat := ⟨3400000001, 2, by decide, by decide⟩

/-- `fileProps42` with the fractional modification time 1700000000.5. -/
def filePropsFraction : SwiftProps :=
  { size := 42
  , content_type := "application/octet-stream"
  , last_modified := mtimeFractional }

/-- C1: `SwiftReadFile.connectionLost` resolves the download's completion
signal with success exactly when the connection ends with `ResponseDone` or
`PotentialDataLoss`; every other termination reason resolves it with failure
carrying that reason, and the consumer's `stopProducing` is called. -/
theorem C1_download_completion (reason : DownloadReason) :
    ((reason = DownloadReason.responseDone ∨ reason = DownloadReason.potentialDataLoss) →
      (SwiftReadFile.connectionLost reason).finished = Except.ok ())
    ∧ (reason ≠ DownloadReason.responseDone → reason ≠ DownloadReason.potentialDataLoss →
      (SwiftReadFile.connectionLost reason).finished = Except.error reason
      ∧ (SwiftReadFile.connectionLost reason).stopProducingCalled = true) := by
  cases reason <;>
    simp [SwiftReadFile.connectionLost, DownloadReason.checkResponseDone,
      DownloadReason.checkPotentialDataLoss]

/-- C1 witness: a clean end-of-body resolves with success; a transport
failure reason resolves with that failure and stops the consumer. -/
theorem C1_download_completion_witness :
    (SwiftReadFile.connectionLost DownloadReason.responseDone).finished = Except.ok ()
    ∧ ((SwiftReadFile.connectionLost
          (DownloadReason.otherReason (Failure.backend BackendError.conflict))).finished
        = Except.error (DownloadReason.otherReason (Failure.backend BackendError.conflict))
      ∧ (SwiftReadFile.connectionLost
          (DownloadReason.otherReason (Failure.backend BackendError.conflict))).stopProducingCalled
        = true) :=
  ⟨(C1_download_completion DownloadReason.responseDone).1 (Or.inl rfl),
   (C1_download_completion
      (DownloadReason.otherReason (Failure.backend BackendError.conflict))).2
     (by decide) (by decide)⟩

/-- C2 counterexample: with an empty backend the object `a/b` does not
exist, yet the shell's `removeFile` yields success, not a NotFound failure —
the errback swallows the backend NotFound. -/
theorem C2_counterexample :
    (([] : BackendState).lookup "a/b" = none)
    ∧ SwiftFTPShell.removeFileOn [] ["a", "b"] = Except.ok () :=
  ⟨rfl, rfl⟩

/-- C2 (amended): the shell's `removeFile` is lenient — it succeeds both
when the object exists (and is deleted) and when the backend reports
NotFound for a missing object, the NotFound being swallowed by the errback. -/
theorem C2_amended_removeFile_lenient (b : BackendState) (path : List String) :
    SwiftFTPShell.removeFileOn b path = Except.ok ()
    ∧ SwiftFTPShell.removeFile path (Except.error BackendError.notFound)
      = Except.ok () := by
  refine ⟨?_, rfl⟩
  unfold SwiftFTPShell.removeFileOn SwiftFileSystem.removeFile
  cases List.lookup (fullpath path) b <;> rfl

/-- C3: `access` succeeds when the backend attributes carry the directory
content type or when the backend reports NotFound, and fails with
`IsNotADirectoryError` when the path denotes an existing non-directory
object. -/
theorem C3_access (path : List String) (props : SwiftProps) :
    (props.content_type = "application/directory" →
      SwiftFTPShell.access path (Except.ok props) = Except.ok ())
    ∧ (props.content_type ≠ "application/directory" →
      SwiftFTPShell.access path (Except.ok props)
        = Except.error (Failure.ftp (FTPError.isNotADirectoryError (PyPath.segs path))))
    ∧ SwiftFTPShell.access path (Except.error BackendError.notFound)
      = Except.ok () := by
  refine ⟨fun h => ?_, fun h => ?_, rfl⟩
  · simp [SwiftFTPShell.access, liftB, addCallback, addErrback,
      SwiftFTPShell.access_cb, h]
  · simp [SwiftFTPShell.access, liftB, addCallback, addErrback,
      SwiftFTPShell.access_cb, h, SwiftFTPShell.access_err, Failure.check]

/-- C3 witness: a directory object grants access; a plain file object is
rejected as not-a-directory. -/
theorem C3_access_witness :
    SwiftFTPShell.access ["a"] (Except.ok dirProps0) = Except.ok ()
    ∧ SwiftFTPShell.access ["a"] (Except.ok fileProps42)
      = Except.error (Failure.ftp (FTPError.isNotADirectoryError (PyPath.segs ["a"]))) :=
  ⟨(C3_access ["a"] dirProps0).1 rfl, (C3_access ["a"] fileProps42).2.1 (by decide)⟩

/-- C4: `rename` remaps a backend NotFound to `FileNotFoundError` for the
joined source path, and both Conflict and NotImplementedError to
`CmdNotImplementedForArgError`; the equalities pin down the outcome
exactly for each of the three failure kinds. -/
theorem C4_rename_error_mapping (fromPath toPath : List String) :
    SwiftFTPShell.rename fromPath toPath (Except.error BackendError.notFound)
      = Except.error (Failure.ftp
          (FTPError.fileNotFoundError (PyPath.str (fullpath fromPath))))
    ∧ SwiftFTPShell.rename fromPath toPath (Except.error BackendError.conflict)
      = Except.error (Failure.ftp
          (FTPError.cmdNotImplementedForArgError (PyPath.str (fullpath fromPath))))
    ∧ SwiftFTPShell.rename fromPath toPath
        (Except.error BackendError.notImplementedError)
      = Except.error (Failure.ftp
          (FTPError.cmdNotImplementedForArgError (PyPath.str (fullpath fromPath)))) :=
  ⟨rfl, rfl, rfl⟩

/-- C5 counterexample: `list` installs no errback, so a raw backend NotFound
reaches the protocol engine unmapped. -/
theorem C5_counterexample :
    SwiftFTPShell.list ["a"] ["size"] (Except.error BackendError.notFound)
      = Except.error (Failure.backend BackendError.notFound) := rfl

/-- C5 (amended): `removeDirectory`, `removeFile` and `access` remap backend
NotFound to lenient success, `stat` remaps it to `FileNotFoundError`, and
`rename` remaps both NotFound and Conflict; but `list` forwards every
backend failure unchanged, and a backend Conflict from `removeDirectory`,
`removeFile`, `access` or `stat` also leaks to the protocol engine raw. -/
theorem C5_amended_error_remapping :
    (∀ path, SwiftFTPShell.removeDirectory path (Except.error BackendError.notFound)
      = Except.ok ())
    ∧ (∀ path, SwiftFTPShell.removeFile path (Except.error BackendError.notFound)
      = Except.ok ())
    ∧ (∀ path, SwiftFTPShell.access path (Except.error BackendError.notFound)
      = Except.ok ())
    ∧ (∀ path keys, SwiftFTPShell.stat path keys (Except.error BackendError.notFound)
      = Except.error (Failure.ftp (FTPError.fileNotFoundError (PyPath.segs path))))
    ∧ (∀ fromPath toPath,
        SwiftFTPShell.rename fromPath toPath (Except.error BackendError.notFound)
      = Except.error (Failure.ftp
          (FTPError.fileNotFoundError (PyPath.str (fullpath fromPath)))))
    ∧ (∀ fromPath toPath,
        SwiftFTPShell.rename fromPath toPath (Except.error BackendError.conflict)
      = Except.error (Failure.ftp
          (FTPError.cmdNotImplementedForArgError (PyPath.str (fullpath fromPath)))))
    ∧ (∀ path keys e, SwiftFTPShell.list path keys (Except.error e)
      = Except.error (Failure.backend e))
    ∧ (∀ path, SwiftFTPShell.removeDirectory path (Except.error BackendError.conflict)
      = Except.error (Failure.backend BackendError.conflict))
    ∧ (∀ path, SwiftFTPShell.removeFile path (Except.error BackendError.conflict)
      = Except.error (Failure.backend BackendError.conflict))
    ∧ (∀ path, SwiftFTPShell.access path (Except.error BackendError.conflict)
      = Except.error (Failure.backend BackendError.conflict))
    ∧ (∀ path keys, SwiftFTPShell.stat path keys (Except.error BackendError.conflict)
      = Except.error (Failure.backend BackendError.conflict)) :=
  ⟨fun _ => rfl, fun _ => rfl, fun _ => rfl, fun _ _ => rfl, fun _ _ => rfl,
   fun _ _ => rfl, fun _ _ _ => rfl, fun _ => rfl, fun _ => rfl, fun _ => rfl,
   fun _ _ => rfl⟩

/-- C6: `stat_format` yields one value per requested field in order (length
preservation and distribution over append), tags size/modified as integers
and the directory flag as a boolean, truncates the timestamp to whole
seconds, and on a file of size 42 with modify time 1700000000 the request
`[size, directory, modified]` yields `[42, false, 1700000000]`. -/
theorem C6_stat_format_fields :
    (∀ keys props, (stat_format keys props).length = keys.length)
    ∧ (∀ ks1 ks2 props, stat_format (ks1 ++ ks2) props
        = stat_format ks1 props ++ stat_format ks2 props)
    ∧ (∀ props, stat_format ["size", "directory", "modified"] props
        = [StatVal.intVal (swift_stat props).st_size,
           StatVal.boolVal (decide ((swift_stat props).st_mode &&& S_IFDIR = S_IFDIR)),
           StatVal.intVal (pyInt (swift_stat props).st_mtime)])
    ∧ stat_format ["size", "directory", "modified"] fileProps42
      = [StatVal.intVal 42, StatVal.boolVal false, StatVal.intVal 1700000000]
    ∧ stat_format ["modified"] filePropsFraction
      = [StatVal.intVal 1700000000] := by
  refine ⟨fun keys props => ?_, fun ks1 ks2 props => ?_, fun props => rfl,
    by decide, by decide⟩
  · simp [stat_format]
  · simp [stat_format]

/-- C7 counterexample: `own` is none of the seven known field names, yet
`stat_format` emits `nobody` for it (the substring test `key in 'owner'`
matches), not the empty value the claim requires. -/
theorem C7_counterexample :
    ("own" ≠ "size" ∧ "own" ≠ "directory" ∧ "own" ≠ "permissions"
      ∧ "own" ≠ "hardlinks" ∧ "own" ≠ "modified" ∧ "own" ≠ "owner"
      ∧ "own" ≠ "group")
    ∧ stat_format ["own"] fileProps42 = [StatVal.strVal "nobody"]
    ∧ stat_format ["own"] fileProps42 ≠ [StatVal.strVal ""] :=
  ⟨by decide, by decide, by decide⟩

/-- C7 (amended): a requested field name that matches none of the named
keys and is not a contiguous substring of `owner` or of `group` yields the
empty value, and the formatter never fails: the result always has one entry
per requested field. -/
theorem C7_amended_unknown_fields (key : String) (props : SwiftProps)
    (h1 : key ≠ "size") (h2 : key ≠ "directory") (h3 : key ≠ "permissions")
    (h4 : key ≠ "hardlinks") (h5 : key ≠ "modified")
    (h6 : pyIn key "owner" = false) (h7 : pyIn key "group" = false) :
    stat_format [key] props = [StatVal.strVal ""]
    ∧ ∀ keys, (stat_format keys props).length = keys.length := by
  constructor
  · simp [stat_format, h1, h2, h3, h4, h5, h6, h7]
  · intro keys
    simp [stat_format]

/-- C7 witness: the unknown field `xyz` yields the empty value, and a
two-field request yields two entries. -/
theorem C7_amended_unknown_fields_witness :
    stat_format ["xyz"] fileProps42 = [StatVal.strVal ""]
    ∧ (stat_format ["xyz", "size"] fileProps42).length = 2 := by
  have h := C7_amended_unknown_fields "xyz" fileProps42 (by decide) (by decide)
    (by decide) (by decide) (by decide) (by decide) (by decide)
  exact ⟨h.1, h.2 ["xyz", "size"]⟩

/-- C8 (code observation at the failing input): `close()` on a write handle
whose `receive()` was never called returns `None` — an absent completion
signal — whereas after `receive()` it returns the stored upload signal. -/
theorem C8_close_without_receive :
    (SwiftWriteFile.init "cont/obj").close = none
    ∧ ((SwiftWriteFile.init "cont/obj").receive (Except.ok ())).close
      = some (Except.ok ()) :=
  ⟨rfl, rfl⟩

/-- C9: a requested field name that matches none of the named keys but is a
contiguous substring of `owner` (the Python `key in 'owner'` test) makes
`stat_format` emit the constant `nobody` instead of an empty value. -/
theorem C9_substring_owner_nobody (key : String) (props : SwiftProps)
    (h1 : key ≠ "size") (h2 : key ≠ "directory") (h3 : key ≠ "permissions")
    (h4 : key ≠ "hardlinks") (h5 : key ≠ "modified")
    (h6 : pyIn key "owner" = true) :
    stat_format [key] props = [StatVal.strVal "nobody"] := by
  simp [stat_format, h1, h2, h3, h4, h5, h6]

/-- C9 witness: `own`, the empty string and `ne` are substrings of `owner`
and all yield `nobody`. -/
theorem C9_substring_owner_nobody_witness :
    stat_format ["own"] fileProps42 = [StatVal.strVal "nobody"]
    ∧ stat_format [""] fileProps42 = [StatVal.strVal "nobody"]
    ∧ stat_format ["ne"] fileProps42 = [StatVal.strVal "nobody"] :=
  ⟨C9_substring_owner_nobody "own" fileProps42 (by decide) (by decide) (by decide)
      (by decide) (by decide) (by decide),
   C9_substring_owner_nobody "" fileProps42 (by decide) (by decide) (by decide)
      (by decide) (by decide) (by decide),
   C9_substring_owner_nobody "ne" fileProps42 (by decide) (by decide) (by decide)
      (by decide) (by decide) (by decide)⟩

/-- C10: `openForWriting` succeeds for every path and every backend state,
its result is independent of the backend state (no existence or directory
check is issued), and the handle carries no completion signal yet — any
failure can only surface later through the upload's completion signal. -/
theorem C10_openForWriting_unconditional (b bAlt : BackendState)
    (path : List String) :
    SwiftFTPShell.openForWriting b path
      = Except.ok (SwiftWriteFile.init (fullpath path))
    ∧ SwiftFTPShell.openForWriting b path = SwiftFTPShell.openForWriting bAlt path
    ∧ (SwiftWriteFile.init (fullpath path)).finished = none :=
  ⟨rfl, rfl, rfl⟩
